import Mathlib

/-!
Verification development for the ZT-Verify backend (`src/backend`).

The definitions below are a shallow embedding of the Python source:

* `database.py`  : OTP rows (`otp_codes` table), `store_otp`, `verify_otp`,
  `get_active_otp`, `register_device`, `is_known_device`.
* `otp.py`       : `create_otp_challenge`, `verify_otp` (the wrapper that
  strips whitespace, validates the 6-digit format, and translates the
  database result into a user-facing response).
* `ml_engine_uae.py` : `assess_risk_rules` and `predict_risk_hybrid`.
* `main.py`      : the `/api/authenticate` decision flow (jurisdiction
  override, demo-user override, 2FA decision, device registration).

Conventions used throughout:

* Timestamps are natural numbers (seconds).  `datetime.now()` becomes an
  explicit `now` argument; the 5-minute OTP expiry is 300 seconds.
* SQL result ordering: the `otp_codes` list is kept newest-first, so the
  `ORDER BY created_at DESC LIMIT 1` queries become `List.find?`.
* The SQLite row id is the `id` field; `UPDATE ... WHERE id = ?` becomes a
  `List.map` guarded on `id` (the primary key is unique in the real table,
  which theorems capture with a `Nodup` hypothesis where it matters).
* Python strings become `String`; `str.strip` / `str.lower` / substring
  tests are re-implemented structurally (`stripChars`, `hasSub`) so that
  concrete instances evaluate inside the kernel.
* The external collaborators (bcrypt check, account lookup, email
  delivery, ML classifier) are inputs: booleans / an optional anomaly
  probability, exactly the success/failure signal the source branches on.
-/

/-! ## Character/string helpers (Python `str.strip`, `str.lower`, `in`) -/

/-- Python `str.strip()` on the character list of a string: drop whitespace
from both ends. -/
def stripChars (l : List Char) : List Char :=
  ((l.dropWhile Char.isWhitespace).reverse.dropWhile Char.isWhitespace).reverse

/-- Python `needle in hay` substring test on character lists. -/
def hasSub (needle hay : List Char) : Bool :=
  hay.tails.any (fun t => needle.isPrefixOf t)

/-- Python `str.lower()` (ASCII case folding, which is all the source uses). -/
def lowerChars (s : String) : List Char :=
  s.data.map Char.toLower

/-! ## OTP data model (`otp_codes` table in `database.py`) -/

/-- One row of the `otp_codes` table: `id, username, code, created_at,
expires_at, attempts (default 0), verified (default 0)`. -/
structure OtpRecord where
  id : Nat
  username : String
  code : String
  createdAt : Nat
  expiresAt : Nat
  attempts : Nat
  verified : Bool
deriving DecidableEq, Repr

/-- The store of OTP rows, newest row first (inserts prepend, so
`ORDER BY created_at DESC LIMIT 1` is `List.find?`). -/
abbrev OtpStore := List OtpRecord

/-- `database.verify_otp`'s initial query: the most recent row with
`username = ? AND verified = 0`. -/
def selectUnverified (u : String) (st : OtpStore) : Option OtpRecord :=
  st.find? (fun r => r.username == u && !r.verified)

/-- `database.get_active_otp`: most recent row with `username = ? AND
verified = 0 AND expires_at > now`. -/
def getActiveOtp (now : Nat) (u : String) (st : OtpStore) : Option OtpRecord :=
  st.find? (fun r => r.username == u && !r.verified && decide (now < r.expiresAt))

/-- `UPDATE otp_codes SET verified = 1 WHERE id = ?`. -/
def setVerified (i : Nat) (st : OtpStore) : OtpStore :=
  st.map (fun r => if r.id = i then { r with verified := true } else r)

/-- `UPDATE otp_codes SET attempts = attempts + 1 WHERE id = ?`. -/
def bumpAttempts (i : Nat) (st : OtpStore) : OtpStore :=
  st.map (fun r => if r.id = i then { r with attempts := r.attempts + 1 } else r)

/-- Result messages of `database.verify_otp`, in the order the source
checks them: `'No OTP found'`, `'OTP expired'`, `'Too many attempts'`,
`'Invalid OTP code'`, `'OTP verified successfully'`. -/
inductive DbVerifyResult where
  | noOtpFound
  | otpExpired
  | tooManyAttempts
  | invalidCode
  | verifiedOk
deriving DecidableEq, Repr

/-- `database.verify_otp(username, code)`: load the most recent unverified
row; report expiry (`datetime.now() > expires_at`), then the attempt cap
(`attempts >= 3`), then compare codes, marking verified on a match and
incrementing `attempts` on a mismatch. -/
def dbVerifyOtp (now : Nat) (u code : String) (st : OtpStore) :
    DbVerifyResult × OtpStore :=
  match selectUnverified u st with
  | none => (.noOtpFound, st)
  | some otp =>
    if otp.expiresAt < now then (.otpExpired, st)
    else if 3 ≤ otp.attempts then (.tooManyAttempts, st)
    else if otp.code = code then (.verifiedOk, setVerified otp.id st)
    else (.invalidCode, bumpAttempts otp.id st)

/-- `database.store_otp` with `expires_in_minutes = 5` (what
`otp.create_otp_challenge` passes): insert a fresh unverified row with
`attempts = 0` and a 300-second expiry. -/
def storeOtp (now : Nat) (u code : String) (freshId : Nat) (st : OtpStore) :
    OtpStore :=
  ⟨freshId, u, code, now, now + 300, 0, false⟩ :: st

/-! ## `otp.py` wrapper: format check, response shaping, issuance -/

/-- User-facing reason categories produced by `otp.verify_otp`.  They stand
for the source's message strings: `Invalid OTP format...` (malformed),
`No OTP found`, `OTP has expired...`, `Too many failed attempts...`,
`Invalid OTP code...`, and the success message. -/
inductive VerifyReason where
  | malformedCode
  | noActiveChallenge
  | expired
  | attemptsExhausted
  | invalidCode
  | success
deriving DecidableEq, Repr

/-- The dict returned by `otp.verify_otp`: `valid`, message category, and
`attempts_remaining` (`None` or `MAX_OTP_ATTEMPTS - attempts`). -/
structure VerifyResponse where
  valid : Bool
  reason : VerifyReason
  attemptsRemaining : Option Int
deriving DecidableEq, Repr

/-- The format guard in `otp.verify_otp`:
`entered_otp.isdigit() and len(entered_otp) == OTP_LENGTH` with
`OTP_LENGTH = 6` (checked after `strip()`). -/
def isValidOtpFormat (l : List Char) : Bool :=
  l.all Char.isDigit && l.length == 6

/-- `otp.verify_otp(username, entered_otp)`: strip whitespace, reject a
non-6-digit submission before touching the store, otherwise delegate to
`database.verify_otp`, then read `get_active_otp` on the updated store to
compute `attempts_remaining` for failure responses. -/
def otpVerify (now : Nat) (u entered : String) (st : OtpStore) :
    VerifyResponse × OtpStore :=
  let e : String := ⟨stripChars entered.data⟩
  if !isValidOtpFormat e.data then
    (⟨false, .malformedCode, none⟩, st)
  else
    let res := dbVerifyOtp now u e st
    let active := getActiveOtp now u res.2
    match res.1 with
    | .verifiedOk => (⟨true, .success, none⟩, res.2)
    | dbr =>
      let ar : Option Int :=
        match active with
        | some a => if !a.verified then some (3 - (a.attempts : Int)) else none
        | none => none
      let reason : VerifyReason :=
        match dbr with
        | .noOtpFound => .noActiveChallenge
        | .otpExpired => .expired
        | .tooManyAttempts => .attemptsExhausted
        | _ => .invalidCode
      (⟨false, reason, ar⟩, res.2)

/-- Outcomes of `otp.create_otp_challenge`. -/
inductive CreateOtpResult where
  | okCreated
  | alreadyActive (remainingSeconds : Nat)
  | notifierFailed
deriving DecidableEq, Repr

/-- `otp.create_otp_challenge(username, user_email)`: refuse while an
active (unverified, unexpired) challenge exists, reporting the remaining
seconds; otherwise persist a fresh code via `store_otp` and hand it to the
notifier.  `emailOk` is the notifier's success signal
(`send_otp_email(...)['success']`).  Note the source does **not** remove
the stored row when the notifier fails: it only reports failure. -/
def createOtpChallenge (now : Nat) (u code : String) (freshId : Nat)
    (emailOk : Bool) (st : OtpStore) : CreateOtpResult × OtpStore :=
  match getActiveOtp now u st with
  | some r => (.alreadyActive (r.expiresAt - now), st)
  | none =>
    let st1 := storeOtp now u code freshId st
    if emailOk then (.okCreated, st1) else (.notifierFailed, st1)

/-- A sequence of verify calls: each carries its clock reading, the
username, and the submitted code. -/
def runOtpVerifies (st : OtpStore) (calls : List (Nat × String × String)) :
    OtpStore :=
  calls.foldl (fun s c => (otpVerify c.1 c.2.1 c.2.2 s).2) st

/-! ## Rule engine (`ml_engine_uae.py`) -/

/-- Raw login context the rule engine consumes (`login_data` plus the IP
already parsed: `none` models an unparseable address, for which both
`is_private_ip` and `is_cloud_ip` return `False` via their `except`
arms). -/
structure LoginCtx where
  username : String
  country : String
  asn : Nat
  ipOctets : Option (Nat × Nat × Nat × Nat)
  userAgent : String
  hourUtc : Nat
deriving DecidableEq, Repr

def UAE_GULF_COUNTRIES : List String := ["AE", "SA", "QA", "KW", "OM", "BH"]

def REGIONAL_SAFE : List String := ["JO", "LB", "EG"]

def ACCEPTABLE_COUNTRIES : List String := ["US", "GB", "DE", "FR", "SG", "AU", "IN"]

def HIGH_RISK_COUNTRIES : List String := ["RU", "CN", "KP", "NG", "RO", "UA", "BR"]

def UAE_ASNS : List Nat := [5384, 15802, 42298, 35753, 36351]

def ATTACK_ASNS : List Nat := [3280, 503109, 62350, 56851]

def CLOUD_ASNS : List Nat := [16509, 14618, 15169, 8075, 14061, 396982]

/-- `BUSINESS_HOURS_UTC = list(range(4, 15))`. -/
def inBusinessHours (h : Nat) : Prop := 4 ≤ h ∧ h < 15

instance (h : Nat) : Decidable (inBusinessHours h) := by
  unfold inBusinessHours; infer_instance

/-- `SUSPICIOUS_HOURS_UTC = list(range(22, 24)) + list(range(0, 3))`. -/
def inSuspiciousHours (h : Nat) : Prop := (22 ≤ h ∧ h < 24) ∨ h < 3

instance (h : Nat) : Decidable (inSuspiciousHours h) := by
  unfold inSuspiciousHours; infer_instance

/-- `ipaddress.IPv4Address(...).is_private` on the parsed octets: the
IPv4 private ranges of the Python standard library (0.0.0.0/8, 10/8,
127/8, 169.254/16, 172.16/12, 192.0.0/29, 192.0.0.170/31, 192.0.2/24,
192.168/16, 198.18/15, 198.51.100/24, 203.0.113/24, 240/4,
255.255.255.255/32); parse failure gives `False`. -/
def isPrivateIp : Option (Nat × Nat × Nat × Nat) → Bool
  | none => false
  | some (a, b, c, d) =>
    a == 0 || a == 10 || a == 127 || (a == 169 && b == 254) ||
    (a == 172 && 16 ≤ b && b ≤ 31) ||
    (a == 192 && b == 0 && c == 0 && d ≤ 7) ||
    (a == 192 && b == 0 && c == 0 && (d == 170 || d == 171)) ||
    (a == 192 && b == 0 && c == 2) || (a == 192 && b == 168) ||
    (a == 198 && (b == 18 || b == 19)) || (a == 198 && b == 51 && c == 100) ||
    (a == 203 && b == 0 && c == 113) || 240 ≤ a

/-- `is_cloud_ip`: membership in the hardcoded /8 blocks 3, 13, 52, 104,
35; parse failure gives `False`. -/
def isCloudIp : Option (Nat × Nat × Nat × Nat) → Bool
  | none => false
  | some (a, _, _, _) => a == 3 || a == 13 || a == 52 || a == 104 || a == 35

/-- The bot denylist of `assess_risk_rules`. -/
def BOT_SUBSTRINGS : List String :=
  ["python", "curl", "wget", "bot", "headless", "phantom"]

/-- `is_bot = any(bot in user_agent for bot in [...])` where `user_agent`
was lowercased on entry. -/
def isBotUA (ua : String) : Bool :=
  BOT_SUBSTRINGS.any (fun b => hasSub b.data (lowerChars ua))

inductive RiskLevel where
  | low
  | medium
  | high
deriving DecidableEq, Repr

/-- The threshold table at the end of `assess_risk_rules` /
`predict_risk_hybrid`: `< 30` low, `< 70` medium, else high, with
`is_anomaly` exactly on high. -/
def riskLevelOf (s : Int) : RiskLevel × Bool :=
  if s < 30 then (.low, false)
  else if s < 70 then (.medium, false)
  else (.high, true)

/-- What the engine returns (score 0-100, level, anomaly flag). -/
structure RiskAssessment where
  score : Int
  level : RiskLevel
  isAnomaly : Bool
deriving DecidableEq, Repr

/-- `assess_risk_rules(username, login_data)`, translated branch for
branch.  The two UAE/Gulf branches return early (so the additive
penalties below them never fire for Gulf countries); the non-Gulf flow
picks a base score (regional 35 / acceptable 40 with cloud +10 and
India-business-hours -10 / unfamiliar 45 / high-risk 80) and then adds
the penalties (+25 private IP, +30 attack ASN, +35 bot outside the Gulf,
+15 suspicious hours inside the Gulf), capping at 100. -/
def assessRiskRules (ctx : LoginCtx) : RiskAssessment :=
  let isBot := isBotUA ctx.userAgent
  if ctx.country ∈ UAE_GULF_COUNTRIES ∧ ctx.asn ∈ UAE_ASNS then
    if isBot then ⟨75, .high, true⟩ else ⟨5, .low, false⟩
  else if ctx.country ∈ UAE_GULF_COUNTRIES then
    if isBot then ⟨70, .high, true⟩
    else
      let s : Int := if inBusinessHours ctx.hourUtc then 10 - 5 else 10
      ⟨max 0 s, .low, false⟩
  else
    let base : Int :=
      if ctx.country ∈ REGIONAL_SAFE then 35
      else if ctx.country ∈ ACCEPTABLE_COUNTRIES then
        let s0 : Int := 40
        let s1 := if ctx.asn ∈ CLOUD_ASNS ∨ isCloudIp ctx.ipOctets then s0 + 10 else s0
        if ctx.country = "IN" ∧ 4 ≤ ctx.hourUtc ∧ ctx.hourUtc < 14 then s1 - 10 else s1
      else if ctx.country ∈ HIGH_RISK_COUNTRIES then 0
      else 45
    let s2 := if ctx.country ∈ HIGH_RISK_COUNTRIES then 80 else base
    let s3 := if isPrivateIp ctx.ipOctets then s2 + 25 else s2
    let s4 := if ctx.asn ∈ ATTACK_ASNS then s3 + 30 else s3
    let s5 := if isBot ∧ ctx.country ∉ UAE_GULF_COUNTRIES then s4 + 35 else s4
    let s6 := if inSuspiciousHours ctx.hourUtc ∧ ctx.country ∈ UAE_GULF_COUNTRIES then s5 + 15 else s5
    let s7 := min 100 s6
    ⟨s7, (riskLevelOf s7).1, (riskLevelOf s7).2⟩

/-- `predict_risk_hybrid(username, login_data)`: run the rules, then, if a
model is loaded and produced a probability, add 10 (capped at 100) exactly
when `ml_score = int(ml_probability * 100)` exceeds 50; recompute the
level/anomaly flag from the adjusted score.  `mlProb = none` models both
"no model loaded" and a prediction error (`except` arm). -/
def predictRiskHybrid (ctx : LoginCtx) (mlProb : Option ℚ) : RiskAssessment :=
  let rules := assessRiskRules ctx
  let final : Int :=
    match mlProb with
    | some p => if 50 < ⌊p * 100⌋ then min 100 (rules.score + 10) else rules.score
    | none => rules.score
  ⟨final, (riskLevelOf final).1, (riskLevelOf final).2⟩

/-! ## Device trust store and the `/api/authenticate` flow (`main.py`) -/

/-- One row of the `user_devices` table (`UNIQUE(username,
device_fingerprint)`). -/
structure DeviceRecord where
  username : String
  fingerprint : String
  firstSeen : Nat
  lastSeen : Nat
deriving DecidableEq, Repr

abbrev DeviceStore := List DeviceRecord

/-- `database.is_known_device`: point lookup on the pair. -/
def isKnownDevice (u f : String) (st : DeviceStore) : Bool :=
  st.any (fun r => r.username == u && r.fingerprint == f)

/-- `database.register_device`: update `last_seen` when the pair exists
(the `UNIQUE` constraint means at most one row matches), otherwise insert
a fresh row with `first_seen = last_seen = now`. -/
def registerDevice (now : Nat) (u f : String) (st : DeviceStore) : DeviceStore :=
  if isKnownDevice u f st then
    st.map (fun r =>
      if r.username == u && r.fingerprint == f then { r with lastSeen := now } else r)
  else
    ⟨u, f, now, now⟩ :: st

/-- The three decision outcomes of the authenticate flow:
`invalid_credentials` responses log `action="deny"`, the OTP response logs
`action="challenge"`, the success response logs `action="allow"`. -/
inductive Decision where
  | denied
  | challenged
  | allowed
deriving DecidableEq, Repr

/-- One `/api/authenticate` request as the decision logic sees it:
`userFound` is `get_user(...) is not None`, `accountActive` is
`user['status'] == 'active'`, `passwordOk` is the bcrypt check, `country`
is the two-letter code parsed from the location, and `engineScore` is
`predict_risk(...)['risk_score']` - the engine result the flow would use
for a regular (non-override) user. -/
structure AuthRequest where
  username : String
  fingerprint : String
  country : String
  userFound : Bool
  accountActive : Bool
  passwordOk : Bool
  engineScore : Int
  now : Nat
deriving DecidableEq, Repr

/-- `DEMO_USERS = {green_user: 15, yellow_user: 50, red_user: 85}`. -/
def DEMO_USERS : List (String × Int) :=
  [("green_user", 15), ("yellow_user", 50), ("red_user", 85)]

/-- The `ml_risk_score` selection in `authenticate`: the India check runs
first (forcing 40), then the demo-user table, then the ML engine. -/
def finalRiskScore (username country : String) (engineScore : Int) : Int :=
  if country = "IN" ∨ username = "india_user" then 40
  else
    match DEMO_USERS.lookup username with
    | some v => v
    | none => engineScore

/-- The `require_2fa` decision in `authenticate`: India forces 2FA, then
score ≥ 70 forces it, then 30 ≤ score requires it exactly for unknown
devices, and low risk logs straight in. -/
def require2fa (username country : String) (score : Int) (deviceKnown : Bool) :
    Bool :=
  if country = "IN" ∨ username = "india_user" then true
  else if 70 ≤ score then true
  else if 30 ≤ score then !deviceKnown
  else false

/-- The `/api/authenticate` decision flow: deny on unknown user, inactive
account, or bad password (all respond `invalid_credentials`); otherwise
pick the risk score, read device trust, and either challenge (OTP
response, store untouched) or allow (which is the only path that calls
`register_device`). -/
def authStep (st : DeviceStore) (rq : AuthRequest) : Decision × DeviceStore :=
  if !rq.userFound then (.denied, st)
  else if !rq.accountActive then (.denied, st)
  else if !rq.passwordOk then (.denied, st)
  else
    let s := finalRiskScore rq.username rq.country rq.engineScore
    let known := isKnownDevice rq.username rq.fingerprint st
    if require2fa rq.username rq.country s known then (.challenged, st)
    else (.allowed, registerDevice rq.now rq.username rq.fingerprint st)

/-- Device store left by a sequence of authenticate requests. -/
def authRun (st : DeviceStore) (rqs : List AuthRequest) : DeviceStore :=
  rqs.foldl (fun s rq => (authStep s rq).2) st

/-- The requests of a sequence paired with the decision each one received
(in order). -/
def authTrace (st : DeviceStore) : List AuthRequest → List (AuthRequest × Decision)
  | [] => []
  | rq :: rest =>
    let step := authStep st rq
    (rq, step.1) :: authTrace step.2 rest

/-! ## Helper lemmas -/

/-- In the well-formed branch of `otp.verify_otp`, the reason can be any
category except `malformedCode`; the rejection branch leaves the store
untouched. -/
theorem otpVerify_reason_not_malformed (now : Nat) (u entered : String)
    (st : OtpStore) (h : isValidOtpFormat (stripChars entered.data) = true) :
    (otpVerify now u entered st).1.reason ≠ VerifyReason.malformedCode := by
  unfold otpVerify
  simp only [h, Bool.not_true, Bool.false_eq_true, if_false]
  cases hdb : (dbVerifyOtp now u ⟨stripChars entered.data⟩ st).1 <;>
    simp [hdb]

/-! ## C9 - MalformedCode characterization -/

/-- Claim C9 as stated is false: `otp.verify_otp` strips whitespace before
the format check, so the raw submission `" 123456"` - which is not exactly
six digits (it has seven characters) - is *not* rejected as malformed: on
an empty store it reaches the challenge lookup and reports
`noActiveChallenge`. -/
theorem C9_counterexample :
    isValidOtpFormat " 123456".data = false ∧
    (otpVerify 0 "alice" " 123456" []).1.reason = VerifyReason.noActiveChallenge ∧
    VerifyReason.noActiveChallenge ≠ VerifyReason.malformedCode := by
  decide

/-- Claim C9, amended for the whitespace stripping: `verify` returns
`MalformedCode` iff the submission *after stripping whitespace* is not
exactly six digits, and in that case it fails fast - the store is left
untouched and the whole result is a constant, independent of any stored
challenge. -/
theorem C9_malformed_iff_stripped_not_six_digits (now : Nat)
    (u entered : String) (st : OtpStore) :
    ((otpVerify now u entered st).1.reason = VerifyReason.malformedCode ↔
      isValidOtpFormat (stripChars entered.data) = false) ∧
    (isValidOtpFormat (stripChars entered.data) = false →
      otpVerify now u entered st = (⟨false, VerifyReason.malformedCode, none⟩, st)) := by
  by_cases h : isValidOtpFormat (stripChars entered.data) = true
  · refine ⟨⟨fun hr => absurd hr (otpVerify_reason_not_malformed now u entered st h), ?_⟩, ?_⟩
    · intro hfalse; rw [h] at hfalse; exact absurd hfalse (by decide)
    · intro hfalse; rw [h] at hfalse; exact absurd hfalse (by decide)
  · have hf : isValidOtpFormat (stripChars entered.data) = false :=
      Bool.eq_false_iff.mpr h
    refine ⟨?_, fun _ => ?_⟩ <;> unfold otpVerify <;> simp [hf]

/-- Witness for C9's amended theorem at a concrete malformed input. -/
theorem C9_malformed_witness :
    isValidOtpFormat (stripChars "12x456".data) = false ∧
    otpVerify 3 "alice" "12x456" [⟨1, "alice", "123456", 0, 300, 0, false⟩] =
      (⟨false, VerifyReason.malformedCode, none⟩,
       [⟨1, "alice", "123456", 0, 300, 0, false⟩]) :=
  ⟨by decide,
   (C9_malformed_iff_stripped_not_six_digits 3 "alice" "12x456"
      [⟨1, "alice", "123456", 0, 300, 0, false⟩]).2 (by decide)⟩

/-! ## C10 - malformed submissions have no effect on stored challenges -/

/-- Claim C10: a submission rejected by the format check (after stripping,
not exactly six digits) returns invalid without reading or writing any
stored challenge: the store is exactly unchanged - so every challenge's
attempts counter, verified flag and expiry are untouched - and the
response is the same constant for every store. -/
theorem C10_malformed_is_pure (now : Nat) (u entered : String) (st : OtpStore)
    (h : isValidOtpFormat (stripChars entered.data) = false) :
    (otpVerify now u entered st).2 = st ∧
    (otpVerify now u entered st).1 = ⟨false, VerifyReason.malformedCode, none⟩ ∧
    ∀ st2 : OtpStore, (otpVerify now u entered st2).1 = (otpVerify now u entered st).1 := by
  refine ⟨?_, ?_, fun st2 => ?_⟩ <;> unfold otpVerify <;> simp [h]

/-- Witness for C10 at a concrete malformed input and nonempty store. -/
theorem C10_malformed_witness :
    isValidOtpFormat (stripChars "1234".data) = false ∧
    (otpVerify 9 "bob" "1234" [⟨7, "bob", "555555", 0, 300, 2, false⟩]).2 =
      [⟨7, "bob", "555555", 0, 300, 2, false⟩] :=
  ⟨by decide,
   (C10_malformed_is_pure 9 "bob" "1234"
      [⟨7, "bob", "555555", 0, 300, 2, false⟩] (by decide)).1⟩

/-! ## C2 - issuance with failed delivery -/

/-- Claim C2 as stated is false on the code: when the notifier fails,
`create_otp_challenge` reports failure but does **not** roll back the row
`store_otp` just persisted - an unverified challenge remains stored. -/
theorem C2_counterexample :
    (createOtpChallenge 0 "alice" "123456" 1 false []).1 =
      CreateOtpResult.notifierFailed ∧
    (createOtpChallenge 0 "alice" "123456" 1 false []).2 ≠ [] ∧
    ∃ r ∈ (createOtpChallenge 0 "alice" "123456" 1 false []).2,
      r.verified = false := by
  decide

/-- Claim C2, amended to the code's behavior: with no active challenge in
the way, issuance persists the new row whether or not delivery succeeds
(no rollback), reports success exactly when delivery succeeds, and
reports `notifierFailed` - with the orphaned unverified row still
stored - when delivery fails. -/
theorem C2_no_rollback_on_notifier_failure (now : Nat) (u code : String)
    (freshId : Nat) (emailOk : Bool) (st : OtpStore)
    (hno : getActiveOtp now u st = none) :
    ((createOtpChallenge now u code freshId emailOk st).1 =
        CreateOtpResult.okCreated ↔ emailOk = true) ∧
    (createOtpChallenge now u code freshId emailOk st).2 =
      storeOtp now u code freshId st ∧
    (emailOk = false →
      (createOtpChallenge now u code freshId emailOk st).1 =
        CreateOtpResult.notifierFailed) := by
  unfold createOtpChallenge
  rw [hno]
  cases emailOk <;> simp

/-- Witness for C2's amended theorem on an empty store with failed
delivery. -/
theorem C2_no_rollback_witness :
    getActiveOtp 0 "alice" [] = none ∧
    (createOtpChallenge 0 "alice" "654321" 2 false []).2 =
      storeOtp 0 "alice" "654321" 2 [] ∧
    (createOtpChallenge 0 "alice" "654321" 2 false []).1 =
      CreateOtpResult.notifierFailed := by
  have h := C2_no_rollback_on_notifier_failure 0 "alice" "654321" 2 false []
    (by decide)
  exact ⟨by decide, h.2.1, h.2.2 rfl⟩

/-! ## C1 - attempts counter: monotone, capped at 3, exhaustion behavior -/

/-- The store left by `otp.verify_otp` is the store left by
`database.verify_otp` when the format check passes, and unchanged
otherwise. -/
theorem otpVerify_snd_eq (now : Nat) (u entered : String) (st : OtpStore) :
    (otpVerify now u entered st).2 =
      if isValidOtpFormat (stripChars entered.data) then
        (dbVerifyOtp now u ⟨stripChars entered.data⟩ st).2
      else st := by
  unfold otpVerify
  by_cases h : isValidOtpFormat (stripChars entered.data) = true
  · simp only [h, Bool.not_true, Bool.false_eq_true, if_false, if_true]
    cases hdb : (dbVerifyOtp now u ⟨stripChars entered.data⟩ st).1 <;> simp [hdb]
  · have hf := Bool.eq_false_iff.mpr h
    simp [hf]

/-- `selectUnverified` on a one-row store is a guard on that row. -/
theorem selectUnverified_singleton (u : String) (c : OtpRecord) :
    selectUnverified u [c] =
      if c.username == u && !c.verified then some c else none := by
  by_cases h : (c.username == u && !c.verified) = true
  · simp [selectUnverified, List.find?, h]
  · have hf := Bool.eq_false_iff.mpr h
    simp [selectUnverified, List.find?, hf]

/-- One `database.verify_otp` call on a single-row store keeps the store a
single row whose attempts counter does not decrease and stays at most 3
(given it starts at most 3). -/
theorem dbVerifyOtp_single_attempts (now : Nat) (u code : String)
    (c : OtpRecord) (h3 : c.attempts ≤ 3) :
    ∃ c2 : OtpRecord, (dbVerifyOtp now u code [c]).2 = [c2] ∧
      c.attempts ≤ c2.attempts ∧ c2.attempts ≤ 3 := by
  unfold dbVerifyOtp
  rw [selectUnverified_singleton]
  by_cases hp : (c.username == u && !c.verified) = true
  · simp only [hp, if_true]
    by_cases he : c.expiresAt < now
    · exact ⟨c, by simp [he], le_refl _, h3⟩
    · by_cases ha : 3 ≤ c.attempts
      · exact ⟨c, by simp [he, ha], le_refl _, h3⟩
      · by_cases hc : c.code = code
        · exact ⟨{ c with verified := true }, by simp [he, ha, hc, setVerified],
            le_refl _, h3⟩
        · exact ⟨{ c with attempts := c.attempts + 1 },
            by simp [he, ha, hc, bumpAttempts], Nat.le_succ _,
            by show c.attempts + 1 ≤ 3; omega⟩
  · have hf := Bool.eq_false_iff.mpr hp
    simp only [hf, Bool.false_eq_true, if_false]
    exact ⟨c, rfl, le_refl _, h3⟩

/-- One `otp.verify_otp` call on a single-row store: same attempts bound. -/
theorem otpVerify_single_attempts (now : Nat) (u code : String)
    (c : OtpRecord) (h3 : c.attempts ≤ 3) :
    ∃ c2 : OtpRecord, (otpVerify now u code [c]).2 = [c2] ∧
      c.attempts ≤ c2.attempts ∧ c2.attempts ≤ 3 := by
  rw [otpVerify_snd_eq]
  by_cases h : isValidOtpFormat (stripChars code.data) = true
  · simp only [h, if_true]
    exact dbVerifyOtp_single_attempts now u _ c h3
  · have hf := Bool.eq_false_iff.mpr h
    simp only [hf, Bool.false_eq_true, if_false]
    exact ⟨c, rfl, le_refl _, h3⟩

/-- Any sequence of verify calls on a single stored challenge keeps the
attempts counter non-decreasing and at most 3. -/
theorem runOtpVerifies_single_attempts (c : OtpRecord)
    (calls : List (Nat × String × String)) (h3 : c.attempts ≤ 3) :
    ∃ c2 : OtpRecord, runOtpVerifies [c] calls = [c2] ∧
      c.attempts ≤ c2.attempts ∧ c2.attempts ≤ 3 := by
  induction calls generalizing c with
  | nil => exact ⟨c, rfl, le_refl _, h3⟩
  | cons a rest ih =>
    obtain ⟨c1, h1, hle1, hb1⟩ := otpVerify_single_attempts a.1 a.2.1 a.2.2 c h3
    obtain ⟨c2, hrun, hle2, hb2⟩ := ih c1 hb1
    refine ⟨c2, ?_, le_trans hle1 hle2, hb2⟩
    simp only [runOtpVerifies, List.foldl_cons] at hrun ⊢
    rw [h1]
    exact hrun

/-- Claim C1 as stated is false in one corner: a verification attempt
against a challenge whose attempts counter is already 3 does **not**
return `attemptsExhausted` when the challenge has also expired - the
expiry check runs first and the call returns `expired`, even with the
correct code. -/
theorem C1_counterexample :
    (⟨1, "alice", "123456", 0, 100, 3, false⟩ : OtpRecord).attempts = 3 ∧
    (otpVerify 200 "alice" "123456"
        [⟨1, "alice", "123456", 0, 100, 3, false⟩]).1.reason =
      VerifyReason.expired ∧
    VerifyReason.expired ≠ VerifyReason.attemptsExhausted := by
  decide

/-- Claim C1, amended for the expiry precedence: over any sequence of
verify calls against one stored challenge the attempts counter only ever
increases and never exceeds 3; and a well-formed verification attempt
made while the challenge is unexpired and its attempts counter is already
3 returns `attemptsExhausted` without accepting the code - even when the
submitted code equals the stored code. -/
theorem C1_attempts_monotone_capped (c : OtpRecord)
    (calls : List (Nat × String × String)) (now : Nat) (code : String)
    (h3 : c.attempts ≤ 3) :
    (∃ c2 : OtpRecord, runOtpVerifies [c] calls = [c2] ∧
      c.attempts ≤ c2.attempts ∧ c2.attempts ≤ 3) ∧
    (c.attempts = 3 → c.verified = false → now ≤ c.expiresAt →
      isValidOtpFormat (stripChars code.data) = true →
      (otpVerify now c.username code [c]).1.valid = false ∧
      (otpVerify now c.username code [c]).1.reason =
        VerifyReason.attemptsExhausted ∧
      (otpVerify now c.username code [c]).2 = [c]) := by
  refine ⟨runOtpVerifies_single_attempts c calls h3, ?_⟩
  intro ha hv hexp hfmt
  have hne : ¬ c.expiresAt < now := Nat.not_lt.mpr hexp
  have hdb : dbVerifyOtp now c.username ⟨stripChars code.data⟩ [c] =
      (DbVerifyResult.tooManyAttempts, [c]) := by
    unfold dbVerifyOtp
    rw [selectUnverified_singleton]
    simp [hv, hne, ha]
  unfold otpVerify
  simp [hfmt, hdb]

/-- Witness for C1's amended theorem: an exhausted but unexpired challenge
rejects even the correct code with `attemptsExhausted`, unchanged. -/
theorem C1_attempts_witness :
    (∃ c2 : OtpRecord,
        runOtpVerifies [⟨1, "alice", "123456", 0, 300, 3, false⟩] [] = [c2] ∧
        (⟨1, "alice", "123456", 0, 300, 3, false⟩ : OtpRecord).attempts ≤
          c2.attempts ∧
        c2.attempts ≤ 3) ∧
    ((otpVerify 50 "alice" "123456"
        [⟨1, "alice", "123456", 0, 300, 3, false⟩]).1.valid = false ∧
      (otpVerify 50 "alice" "123456"
        [⟨1, "alice", "123456", 0, 300, 3, false⟩]).1.reason =
        VerifyReason.attemptsExhausted ∧
      (otpVerify 50 "alice" "123456"
        [⟨1, "alice", "123456", 0, 300, 3, false⟩]).2 =
        [⟨1, "alice", "123456", 0, 300, 3, false⟩]) := by
  have h := C1_attempts_monotone_capped ⟨1, "alice", "123456", 0, 300, 3, false⟩
    [] 50 "123456" (by decide)
  exact ⟨h.1, h.2 rfl rfl (by decide) (by decide)⟩

/-! ## C6 - a verified challenge is single-use -/

/-- Claim C6: once a challenge row is verified, no later `verify_otp` call
can succeed against it again: the row is never even selected by the
lookup (which filters `verified = 0`), it survives every verify call
verbatim, and any call that does succeed succeeded against a row that was
unverified before the call.  The `Nodup` hypothesis is the `otp_codes`
primary key. -/
theorem C6_verified_is_single_use (st : OtpStore) (now : Nat)
    (u code : String) (r : OtpRecord)
    (hnodup : (st.map OtpRecord.id).Nodup) (hr : r ∈ st)
    (hv : r.verified = true) :
    selectUnverified u st ≠ some r ∧
    r ∈ (dbVerifyOtp now u code st).2 ∧
    ((dbVerifyOtp now u code st).1 = DbVerifyResult.verifiedOk →
      ∃ s : OtpRecord, selectUnverified u st = some s ∧ s.verified = false) := by
  refine ⟨?_, ?_, ?_⟩
  · intro hsel
    have hpred := List.find?_some hsel
    simp [hv] at hpred
  · unfold dbVerifyOtp
    cases hsel : selectUnverified u st with
    | none => exact hr
    | some s =>
      have hpred := List.find?_some hsel
      have hsmem := List.mem_of_find?_eq_some hsel
      have hsv : s.verified = false := by
        cases hsv2 : s.verified
        · rfl
        · rw [hsv2] at hpred; simp at hpred
      have hrs : r ≠ s := fun h => by rw [h, hsv] at hv; exact Bool.false_ne_true hv
      have hid : r.id ≠ s.id := by
        intro hid
        exact hrs ((List.inj_on_of_nodup_map hnodup) hr hsmem hid)
      by_cases he : s.expiresAt < now
      · simp [he]; exact hr
      · by_cases ha : 3 ≤ s.attempts
        · simp [he, ha]; exact hr
        · by_cases hc : s.code = code
          · simp only [he, ha, hc, if_true, if_false]
            unfold setVerified
            have : (if r.id = s.id then { r with verified := true } else r) = r := by
              simp [hid]
            exact this ▸ List.mem_map_of_mem _ hr
          · simp only [he, ha, hc, if_false]
            unfold bumpAttempts
            have : (if r.id = s.id then { r with attempts := r.attempts + 1 } else r) = r := by
              simp [hid]
            exact this ▸ List.mem_map_of_mem _ hr
  · intro hok
    unfold dbVerifyOtp at hok
    cases hsel : selectUnverified u st with
    | none => rw [hsel] at hok; simp at hok
    | some s =>
      have hpred := List.find?_some hsel
      have hsv : s.verified = false := by
        cases hsv2 : s.verified
        · rfl
        · rw [hsv2] at hpred; simp at hpred
      exact ⟨s, rfl, hsv⟩

/-- Witness for C6 on a store holding one verified challenge: even the
matching code cannot re-verify it. -/
theorem C6_verified_witness :
    selectUnverified "alice" [⟨1, "alice", "111111", 0, 300, 1, true⟩] ≠
      some ⟨1, "alice", "111111", 0, 300, 1, true⟩ ∧
    (⟨1, "alice", "111111", 0, 300, 1, true⟩ : OtpRecord) ∈
      (dbVerifyOtp 10 "alice" "111111"
        [⟨1, "alice", "111111", 0, 300, 1, true⟩]).2 := by
  have h := C6_verified_is_single_use
    [⟨1, "alice", "111111", 0, 300, 1, true⟩] 10 "alice" "111111"
    ⟨1, "alice", "111111", 0, 300, 1, true⟩
    (by decide) (by decide) rfl
  exact ⟨h.1, h.2.1⟩

/-! ## C3 - jurisdiction-forced step-up ('IN') -/

/-- Claim C3: with valid credentials and an active account, a login whose
country parses to `"IN"` is always challenged - never allowed or denied -
with a risk score of at least the medium floor 40, for every username
(including the hardcoded demo users, since the India check runs before
the demo-user override), every device-trust state, and every engine
score. -/
theorem C3_india_always_challenged (st : DeviceStore) (rq : AuthRequest)
    (hfound : rq.userFound = true) (hactive : rq.accountActive = true)
    (hpw : rq.passwordOk = true) (hin : rq.country = "IN") :
    (authStep st rq).1 = Decision.challenged ∧
    40 ≤ finalRiskScore rq.username rq.country rq.engineScore := by
  unfold authStep finalRiskScore require2fa
  simp [hfound, hactive, hpw, hin]

/-- Witness for C3: the demo user `green_user` (hardcoded low risk 15)
from India is still challenged with score 40. -/
theorem C3_india_witness :
    (authStep [] ⟨"green_user", "fp1", "IN", true, true, true, 15, 7⟩).1 =
      Decision.challenged ∧
    40 ≤ finalRiskScore "green_user" "IN" 15 :=
  C3_india_always_challenged [] ⟨"green_user", "fp1", "IN", true, true, true, 15, 7⟩
    rfl rfl rfl rfl

/-! ## C5 - decision as a function of score and device trust -/

/-- Claim C5: with valid credentials, an active account and no
jurisdiction override, the decision is exactly: score ≥ 70 challenges
every device; a score in 30-69 challenges unknown devices and allows
known ones; a score below 30 allows every device.  The score here is the
final `ml_risk_score` the flow uses (hardcoded for demo users, the engine
result otherwise). -/
theorem C5_decision_matrix (st : DeviceStore) (rq : AuthRequest)
    (hfound : rq.userFound = true) (hactive : rq.accountActive = true)
    (hpw : rq.passwordOk = true) (hc : rq.country ≠ "IN")
    (hu : rq.username ≠ "india_user") :
    (authStep st rq).1 =
      (if 70 ≤ finalRiskScore rq.username rq.country rq.engineScore then
        Decision.challenged
      else if 30 ≤ finalRiskScore rq.username rq.country rq.engineScore then
        (if isKnownDevice rq.username rq.fingerprint st then Decision.allowed
         else Decision.challenged)
      else Decision.allowed) := by
  unfold authStep require2fa
  have hnj : ¬(rq.country = "IN" ∨ rq.username = "india_user") := by
    simp [hc, hu]
  simp only [hfound, hactive, hpw, hnj, Bool.not_true, Bool.false_eq_true,
    if_false, if_true]
  by_cases h70 : 70 ≤ finalRiskScore rq.username rq.country rq.engineScore
  · simp [h70]
  · by_cases h30 : 30 ≤ finalRiskScore rq.username rq.country rq.engineScore
    · cases hk : isKnownDevice rq.username rq.fingerprint st <;>
        simp [h70, h30, hk]
    · simp [h70, h30]

/-- Witness for C5: engine score 40 with an unknown device challenges,
and the same request with the device on record allows. -/
theorem C5_decision_witness :
    (authStep [] ⟨"bob", "fp1", "US", true, true, true, 40, 7⟩).1 =
      Decision.challenged ∧
    (authStep [⟨"bob", "fp1", 1, 1⟩]
        ⟨"bob", "fp1", "US", true, true, true, 40, 7⟩).1 = Decision.allowed := by
  constructor
  · rw [C5_decision_matrix [] ⟨"bob", "fp1", "US", true, true, true, 40, 7⟩
      rfl rfl rfl (by decide) (by decide)]
    decide
  · rw [C5_decision_matrix [⟨"bob", "fp1", 1, 1⟩]
      ⟨"bob", "fp1", "US", true, true, true, 40, 7⟩
      rfl rfl rfl (by decide) (by decide)]
    decide

/-! ## C8 - device records appear only after an Allowed outcome -/

/-- Touching `last_seen` does not change which (username, fingerprint)
pairs are known. -/
theorem isKnownDevice_touch (now : Nat) (u f u0 f0 : String) (st : DeviceStore) :
    isKnownDevice u0 f0 (st.map (fun r =>
        if r.username == u && r.fingerprint == f then { r with lastSeen := now }
        else r)) =
      isKnownDevice u0 f0 st := by
  unfold isKnownDevice
  rw [List.any_map]
  have hfun : ((fun r : DeviceRecord => r.username == u0 && r.fingerprint == f0) ∘
      (fun r : DeviceRecord =>
        if r.username == u && r.fingerprint == f then { r with lastSeen := now }
        else r)) =
      (fun r : DeviceRecord => r.username == u0 && r.fingerprint == f0) := by
    funext r
    by_cases hc : (r.username == u && r.fingerprint == f) = true <;>
      simp [Function.comp, hc]
  rw [hfun]

/-- A pair known after `register_device` was either the registered pair or
already known before. -/
theorem isKnownDevice_registerDevice (now : Nat) (u f u0 f0 : String)
    (st : DeviceStore)
    (h : isKnownDevice u0 f0 (registerDevice now u f st) = true) :
    (u0 = u ∧ f0 = f) ∨ isKnownDevice u0 f0 st = true := by
  unfold registerDevice at h
  by_cases hk : isKnownDevice u f st = true
  · right
    rw [if_pos hk, isKnownDevice_touch] at h
    exact h
  · rw [if_neg hk] at h
    unfold isKnownDevice at h ⊢
    rw [List.any_cons] at h
    have h2 : ((u == u0 && f == f0) ||
        st.any (fun r => r.username == u0 && r.fingerprint == f0)) = true := h
    by_cases hpair : ((u == u0) && (f == f0)) = true
    · have h1 : u = u0 ∧ f = f0 := by simpa using hpair
      exact Or.inl ⟨h1.1.symm, h1.2.symm⟩
    · have hfalse : ((u == u0) && (f == f0)) = false := Bool.eq_false_iff.mpr hpair
      rw [hfalse, Bool.false_or] at h2
      exact Or.inr h2

/-- A step that is not allowed leaves the device store untouched. -/
theorem authStep_not_allowed_frame (st : DeviceStore) (rq : AuthRequest)
    (h : (authStep st rq).1 ≠ Decision.allowed) : (authStep st rq).2 = st := by
  unfold authStep at h ⊢
  split_ifs at h ⊢ <;>
    by_cases hreq : require2fa rq.username rq.country
        (finalRiskScore rq.username rq.country rq.engineScore)
        (isKnownDevice rq.username rq.fingerprint st) = true <;>
      simp_all

/-- An allowed step updates the store by `register_device` on the request
pair. -/
theorem authStep_allowed_update (st : DeviceStore) (rq : AuthRequest)
    (h : (authStep st rq).1 = Decision.allowed) :
    (authStep st rq).2 = registerDevice rq.now rq.username rq.fingerprint st := by
  unfold authStep at h ⊢
  split_ifs at h ⊢
  by_cases hreq : require2fa rq.username rq.country
      (finalRiskScore rq.username rq.country rq.engineScore)
      (isKnownDevice rq.username rq.fingerprint st) = true <;>
    simp_all

/-- Claim C8: starting from a store that does not know the pair `(u, f)`,
the pair is known after a sequence of authenticate requests only if some
request in the sequence carried exactly that username and fingerprint and
ended in `allowed`; and any step that ends in `challenged` or `denied`
leaves the device store exactly unchanged. -/
theorem C8_device_record_only_after_allow (st0 : DeviceStore)
    (rqs : List AuthRequest) (u f : String)
    (h0 : isKnownDevice u f st0 = false)
    (hmem : isKnownDevice u f (authRun st0 rqs) = true) :
    (∃ p ∈ authTrace st0 rqs,
      p.1.username = u ∧ p.1.fingerprint = f ∧ p.2 = Decision.allowed) ∧
    ∀ (st : DeviceStore) (rq : AuthRequest),
      (authStep st rq).1 ≠ Decision.allowed → (authStep st rq).2 = st := by
  refine ⟨?_, fun st rq h => authStep_not_allowed_frame st rq h⟩
  induction rqs generalizing st0 with
  | nil =>
    rw [show authRun st0 [] = st0 from rfl] at hmem
    rw [hmem] at h0
    exact absurd h0 (by decide)
  | cons rq rest ih =>
    have hrun : authRun st0 (rq :: rest) = authRun (authStep st0 rq).2 rest := rfl
    rw [hrun] at hmem
    have htrace : authTrace st0 (rq :: rest) =
        (rq, (authStep st0 rq).1) :: authTrace (authStep st0 rq).2 rest := rfl
    by_cases hd : (authStep st0 rq).1 = Decision.allowed
    · by_cases hp : isKnownDevice u f (authStep st0 rq).2 = true
      · rw [authStep_allowed_update st0 rq hd] at hp
        rcases isKnownDevice_registerDevice rq.now rq.username rq.fingerprint
            u f st0 hp with hpair | hbefore
        · refine ⟨(rq, (authStep st0 rq).1), ?_, hpair.1.symm, hpair.2.symm, hd⟩
          rw [htrace]
          exact List.mem_cons_self _ _
        · rw [hbefore] at h0
          exact absurd h0 (by decide)
      · have h0b : isKnownDevice u f (authStep st0 rq).2 = false :=
          Bool.eq_false_iff.mpr hp
        obtain ⟨p, hpmem, hrest⟩ := ih (authStep st0 rq).2 h0b hmem
        refine ⟨p, ?_, hrest⟩
        rw [htrace]
        exact List.mem_cons_of_mem _ hpmem
    · have hframe := authStep_not_allowed_frame st0 rq hd
      rw [hframe] at hmem
      obtain ⟨p, hpmem, hrest⟩ := ih st0 h0 hmem
      refine ⟨p, ?_, hrest⟩
      rw [htrace, hframe]
      exact List.mem_cons_of_mem _ hpmem

/-- Witness for C8: a low-risk allowed login registers exactly its own
pair. -/
theorem C8_device_record_witness :
    isKnownDevice "bob" "fp1" [] = false ∧
    (∃ p ∈ authTrace [] [(⟨"bob", "fp1", "US", true, true, true, 10, 5⟩ : AuthRequest)],
      p.1.username = "bob" ∧ p.1.fingerprint = "fp1" ∧ p.2 = Decision.allowed) :=
  ⟨by decide,
   (C8_device_record_only_after_allow []
      [⟨"bob", "fp1", "US", true, true, true, 10, 5⟩] "bob" "fp1"
      (by decide) (by decide)).1⟩


/-! ## C4 - bot user agents and the risk floor -/

set_option maxHeartbeats 1000000 in
/-- Claim C4 as stated is false: a bot user agent from India (an
acceptable business-partner country) during India business hours lands on
40 - 10 + 35 = 65, below 70 - the business-hours discount applies after
the base and the bot penalty cannot recover past 70. -/
theorem C4_counterexample :
    isBotUA "python-requests/2.0" = true ∧
    (assessRiskRules ⟨"u", "IN", 0, some (1, 2, 3, 4),
        "python-requests/2.0", 5⟩).score = 65 ∧
    ¬(70 ≤ (assessRiskRules ⟨"u", "IN", 0, some (1, 2, 3, 4),
        "python-requests/2.0", 5⟩).score) := by
  decide

/-- Claim C4, amended: a denylisted bot user agent always forces the rule
score to at least 65, and to at least 70 in every case except a login
from `"IN"` during UTC hours 4-13, where the India business-hours
discount can leave the score at 65. -/
theorem C4_bot_floor (ctx : LoginCtx) (hbot : isBotUA ctx.userAgent = true) :
    65 ≤ (assessRiskRules ctx).score ∧
    (¬(ctx.country = "IN" ∧ 4 ≤ ctx.hourUtc ∧ ctx.hourUtc < 14) →
      70 ≤ (assessRiskRules ctx).score) := by
  unfold assessRiskRules
  simp only [hbot, eq_self_iff_true, if_true, true_and]
  by_cases h1 : ctx.country ∈ UAE_GULF_COUNTRIES ∧ ctx.asn ∈ UAE_ASNS
  · rw [if_pos h1]
    exact ⟨by decide, fun hx => by decide⟩
  · rw [if_neg h1]
    by_cases h2 : ctx.country ∈ UAE_GULF_COUNTRIES
    · rw [if_pos h2]
      exact ⟨by decide, fun hx => by decide⟩
    · rw [if_neg h2, if_pos h2, if_neg (fun hq => h2 hq.2)]
      refine ⟨?_, fun hex => ?_⟩
      · split_ifs <;> decide
      · rw [if_neg hex]
        split_ifs <;> decide

set_option maxHeartbeats 1000000 in
/-- Witness for C4's amended theorem: a bot user agent from the US scores
at least 70. -/
theorem C4_bot_floor_witness :
    isBotUA "curl/8.0" = true ∧
    70 ≤ (assessRiskRules ⟨"u", "US", 0, some (8, 8, 8, 8),
        "curl/8.0", 12⟩).score :=
  ⟨by decide,
   (C4_bot_floor ⟨"u", "US", 0, some (8, 8, 8, 8), "curl/8.0", 12⟩
      (by decide)).2 (by decide)⟩

/-! ## C7 - the hybrid score never lowers the rule score -/

set_option maxHeartbeats 1000000 in
/-- The rule engine's score never exceeds 100 (gulf branches return
constants; the additive flow is capped by `min 100`). -/
theorem assessRiskRules_score_le_100 (ctx : LoginCtx) :
    (assessRiskRules ctx).score ≤ 100 := by
  unfold assessRiskRules
  by_cases h1 : ctx.country ∈ UAE_GULF_COUNTRIES ∧ ctx.asn ∈ UAE_ASNS
  · rw [if_pos h1]
    by_cases hb : isBotUA ctx.userAgent = true
    · rw [if_pos hb]; decide
    · rw [if_neg hb]; decide
  · rw [if_neg h1]
    by_cases h2 : ctx.country ∈ UAE_GULF_COUNTRIES
    · rw [if_pos h2]
      by_cases hb : isBotUA ctx.userAgent = true
      · rw [if_pos hb]; decide
      · rw [if_neg hb]
        by_cases hh : inBusinessHours ctx.hourUtc
        · rw [if_pos hh]; decide
        · rw [if_neg hh]; decide
    · rw [if_neg h2]
      exact min_le_left _ _

/-- Claim C7, amended for the integer threshold: the hybrid score never
drops below the rule score, equals it when no model prediction is
available or when `int(p * 100) <= 50` (in particular whenever the
probability does not exceed 0.5), and equals `min 100 (rules + 10)`
exactly when `int(p * 100) > 50`, i.e. when the probability reaches 0.51
- not merely exceeds 0.5. -/
theorem C7_hybrid_monotone (ctx : LoginCtx) (mlProb : Option ℚ) :
    (assessRiskRules ctx).score ≤ (predictRiskHybrid ctx mlProb).score ∧
    (mlProb = none →
      (predictRiskHybrid ctx mlProb).score = (assessRiskRules ctx).score) ∧
    (∀ p : ℚ, mlProb = some p → ⌊p * 100⌋ ≤ 50 →
      (predictRiskHybrid ctx mlProb).score = (assessRiskRules ctx).score) ∧
    (∀ p : ℚ, mlProb = some p → p ≤ 1/2 →
      (predictRiskHybrid ctx mlProb).score = (assessRiskRules ctx).score) ∧
    (∀ p : ℚ, mlProb = some p → 50 < ⌊p * 100⌋ →
      (predictRiskHybrid ctx mlProb).score =
        min 100 ((assessRiskRules ctx).score + 10)) := by
  cases mlProb with
  | none => simp [predictRiskHybrid]
  | some p =>
    have hfloor_half : p ≤ 1/2 → ⌊p * 100⌋ ≤ 50 := by
      intro hp
      have h1 : p * 100 ≤ 50 := by linarith
      have h2 : (⌊p * 100⌋ : ℚ) ≤ 50 := le_trans (Int.floor_le _) h1
      exact_mod_cast h2
    by_cases h : 50 < ⌊p * 100⌋
    · unfold predictRiskHybrid
      simp only [h, if_true]
      refine ⟨?_, by simp, ?_, ?_, ?_⟩
      · exact le_min (assessRiskRules_score_le_100 ctx) (by omega)
      · intro q hq h50
        rw [Option.some_inj] at hq
        subst hq
        exact absurd h50 (not_le.mpr h)
      · intro q hq hhalf
        rw [Option.some_inj] at hq
        subst hq
        exact absurd h (by have := hfloor_half hhalf; omega)
      · intro q hq h50
        trivial
    · unfold predictRiskHybrid
      simp only [h, if_false]
      refine ⟨by simp, by simp, fun q hq h50 => trivial, fun q hq hhalf => trivial, ?_⟩
      intro q hq h50
      rw [Option.some_inj] at hq
      subst hq
      exact absurd h50 h

/-- Claim C7 as stated is false in the threshold corner: an anomaly
probability of 0.501 exceeds 0.5, yet `int(0.501 * 100) = 50` is not
greater than 50, so no bonus is added - the hybrid score stays at the
rule score instead of `min 100 (rules + 10)`. -/
theorem C7_counterexample :
    (1 : ℚ)/2 < 501/1000 ∧
    (assessRiskRules ⟨"u", "AE", 5384, some (1, 2, 3, 4),
        "Mozilla/5.0", 5⟩).score = 5 ∧
    (predictRiskHybrid ⟨"u", "AE", 5384, some (1, 2, 3, 4),
        "Mozilla/5.0", 5⟩ (some (501/1000))).score = 5 ∧
    (5 : Int) ≠ min 100 (5 + 10) := by
  have hfl : ⌊(501 : ℚ)/1000 * 100⌋ = 50 := by
    rw [Int.floor_eq_iff]
    norm_num
  refine ⟨by norm_num, by decide, ?_, by decide⟩
  unfold predictRiskHybrid
  simp only [hfl]
  norm_num
  decide

/-- Witness for C7's amended theorem: probability 0.6 adds the +10 bonus
on top of the gulf base score. -/
theorem C7_hybrid_witness :
    (predictRiskHybrid ⟨"u", "AE", 5384, some (1, 2, 3, 4),
        "Mozilla/5.0", 5⟩ (some (6/10))).score =
      min 100 ((assessRiskRules ⟨"u", "AE", 5384, some (1, 2, 3, 4),
        "Mozilla/5.0", 5⟩).score + 10) := by
  have hfl : ⌊(6 : ℚ)/10 * 100⌋ = 60 := by
    rw [Int.floor_eq_iff]
    norm_num
  exact (C7_hybrid_monotone ⟨"u", "AE", 5384, some (1, 2, 3, 4),
    "Mozilla/5.0", 5⟩ (some (6/10))).2.2.2.2 (6/10) rfl (by omega)
